import Mathlib

/-!
Verification of the build-orchestration daemon in `docbot.py` against its
natural-language specification.  Each Python function relevant to the frozen
claims is embedded shallowly as an executable Lean definition below; bytes are
modelled as `Nat` (newline = 10), Python byte strings as `List Nat`, and the
timing-dependent readiness reported by `select.select` as an explicit schedule
parameter (a list of rounds; each round lists the streams that the poll call
reports ready, in the order of the watch list).
-/

namespace Docbot

/-! ### Stream multiplexing: `Popen._submit_buffer` and `Popen.communicate`

Streams 0 and 1 stand for the child's stdout and stderr.  A stream is a full
byte sequence together with a read position; `readline` returns the next chunk
up to and including a newline, the trailing unterminated chunk, or `[]` once
the stream is exhausted (end of stream), matching `io.readline` on a pipe. -/

/-- State of the `Popen.communicate` polling loop: read positions of the two
streams, the mutable `rlist` of watched stream ids, the parallel list of
line `buffers`, the lines delivered to `sink_line_call` so far (`out`), and
whether a Python `IndexError` was raised (`err`). -/
structure CommState where
  pos0 : Nat
  pos1 : Nat
  rlist : List Nat
  buffers : List (List Nat)
  out : List (List Nat)
  err : Bool
  deriving DecidableEq, Repr

/-- Blocking `readline` on a byte stream `data` at read position `pos`:
returns the bytes up to and including the next newline, the unterminated
tail at end of data, or `[]` when the stream is exhausted. -/
def readline (data : List Nat) (pos : Nat) : List Nat × Nat :=
  let rest := data.drop pos
  match rest.findIdx? (fun b => b == 10) with
  | some k => (rest.take (k + 1), pos + k + 1)
  | none => (rest, pos + rest.length)

/-- Embedding of `Popen._submit_buffer(buf, force)`: returns the byte strings
passed to `sink_line_call`, in order, and the value returned (the new buffer
contents).  Faithful to the source, including the loop body
`self.sink_line_call(buf)` that passes the whole buffer, not the current
line, once per complete line in the buffer. -/
def submitBuffer (buf : List Nat) (force : Bool) : List (List Nat) × List Nat :=
  if !buf.contains 10 then
    if force then ([buf], []) else ([], buf)
  else
    let split := buf.splitOn 10
    (List.replicate (split.length - 1) buf, split.getLastD [])

/-- Data of the stream with the given id (0 = stdout, 1 = stderr). -/
def getData (d0 d1 : List Nat) (fd : Nat) : List Nat :=
  if fd == 0 then d0 else d1

/-- Read position of the stream with the given id. -/
def getPos (st : CommState) (fd : Nat) : Nat :=
  if fd == 0 then st.pos0 else st.pos1

/-- Update the read position of the stream with the given id. -/
def setPos (st : CommState) (fd : Nat) (p : Nat) : CommState :=
  if fd == 0 then { st with pos0 := p } else { st with pos1 := p }

/-- One iteration of the `for i, fd in enumerate(reversed(rs))` body inside
`Popen.communicate`.  `rsLen` is `len(rs)`, which the source uses to compute
the index `len(rs)-(i+1)` into `rlist` and `buffers`; `i` itself indexes
`buffers` on the data path (`buffers[i] += read`).  An out-of-range list
access sets `err` (the Python `IndexError` that aborts the call). -/
def processFd (d0 d1 : List Nat) (rsLen i fd : Nat) (st : CommState) : CommState :=
  if st.err then st else
  let r := readline (getData d0 d1 fd) (getPos st fd)
  let st := setPos st fd r.2
  if r.1.isEmpty then
    let k := rsLen - (i + 1)
    if k < st.rlist.length && k < st.buffers.length then
      let st := { st with rlist := st.rlist.eraseIdx k }
      let buf := st.buffers.getD k []
      let st := if !buf.isEmpty then
          { st with out := st.out ++ (submitBuffer buf true).1 }
        else st
      { st with buffers := st.buffers.eraseIdx k }
    else { st with err := true }
  else
    if i < st.buffers.length then
      let merged := st.buffers.getD i [] ++ r.1
      let sb := submitBuffer merged false
      { st with buffers := st.buffers.set i sb.2, out := st.out ++ sb.1 }
    else { st with err := true }

/-- One round of the `while True` loop of `Popen.communicate`: `rs` is the
list of stream ids reported ready by `select.select`, in watch-list order;
the body iterates over `reversed(rs)` with `i` counting from 0. -/
def processRound (d0 d1 : List Nat) (rs : List Nat) (st : CommState) : CommState :=
  (rs.reverse.enum).foldl (fun s p => processFd d0 d1 rs.length p.1 p.2 s) st

/-- The `while True` polling loop of `Popen.communicate`, driven by the
schedule of per-round readiness results.  The loop stops when `rlist` is
empty (the source's `break`), when an exception aborted it, or when the
schedule is exhausted (no further readiness event is modelled). -/
def commLoop (d0 d1 : List Nat) : List (List Nat) → CommState → CommState
  | [], st => st
  | rs :: sched, st =>
    if st.err || st.rlist.isEmpty then st
    else commLoop d0 d1 sched (processRound d0 d1 rs st)

/-- Initial state of `Popen.communicate` with a sink configured:
`buffers = [b"", b""]`, `rlist = [stdout, stderr]`. -/
def initComm : CommState :=
  { pos0 := 0, pos1 := 0, rlist := [0, 1], buffers := [[], []],
    out := [], err := false }

/-- Embedding of `Popen.communicate` with a sink configured: runs the polling
loop, then, when the loop exited normally, the trailing
`for buf in buffers: self._submit_buffer(buf, True)` flush. -/
def communicate (d0 d1 : List Nat) (sched : List (List Nat)) : CommState :=
  let st := commLoop d0 d1 sched initComm
  if !st.err && st.rlist.isEmpty then
    { st with out := st.out ++ (st.buffers.map fun b => (submitBuffer b true).1).flatten }
  else st

/-- Order-preserving sublist test, used to state that `select.select` only
ever reports streams that are in the watch list, in watch-list order. -/
def isSubl : List Nat → List Nat → Bool
  | [], _ => true
  | _ :: _, [] => false
  | a :: as, b :: bs => if a == b then isSubl as bs else isSubl (a :: as) bs

/-- A single readiness result is valid when it is a nonempty order-preserving
sublist of the current watch list.  Readiness itself is timing dependent
(data may arrive, and a stream may be closed, at any point), so any such
sublist is realisable by some run of the child process. -/
def validStep (st : CommState) (rs : List Nat) : Bool :=
  !rs.isEmpty && isSubl rs st.rlist

/-- A schedule is valid when every round consumed by the loop is a valid
readiness result for the state it is applied to. -/
def validScheduleAux (d0 d1 : List Nat) : List (List Nat) → CommState → Bool
  | [], _ => true
  | rs :: sched, st =>
    if st.err || st.rlist.isEmpty then true
    else validStep st rs && validScheduleAux d0 d1 sched (processRound d0 d1 rs st)

/-- Validity of a schedule for `communicate`, starting from the initial state. -/
def validSchedule (d0 d1 : List Nat) (sched : List (List Nat)) : Bool :=
  validScheduleAux d0 d1 sched initComm

/-! ### `Popen.checked` -/

/-- Outcome of `Popen.checked`: normal return, the
`subprocess.CalledProcessError` raised on a non-zero exit status (called
`CommandFailed` by the specification), or an `IndexError` escaping from the
multiplexing `communicate`. -/
inductive CheckedOutcome
  | ok
  | commandFailed (returncode : Int) (cmd : String)
  | indexError
  deriving DecidableEq, Repr

/-- One observed run of the child process: the full byte contents of its two
output channels, the readiness schedule of the polling loop, and the exit
status returned by `wait()`. -/
structure ChildRun where
  stdoutData : List Nat
  stderrData : List Nat
  sched : List (List Nat)
  retval : Int
  deriving DecidableEq, Repr

/-- Embedding of `Popen.checked(call, sink_line_call=...)`: spawns the child
once, runs `communicate` (the multiplexed variant when a sink is configured),
then `wait()`; raises `CalledProcessError(retval, " ".join(call))` when the
exit status is non-zero.  Returns the outcome and the number of spawn
attempts made. -/
def checked (call : List String) (withSink : Bool) (run : ChildRun) :
    CheckedOutcome × Nat :=
  let spawns := 1
  if withSink then
    let st := communicate run.stdoutData run.stderrData run.sched
    if st.err then (CheckedOutcome.indexError, spawns)
    else if run.retval != 0 then
      (CheckedOutcome.commandFailed run.retval (String.intercalate " " call), spawns)
    else (CheckedOutcome.ok, spawns)
  else
    if run.retval != 0 then
      (CheckedOutcome.commandFailed run.retval (String.intercalate " " call), spawns)
    else (CheckedOutcome.ok, spawns)

/-! ### `BuildEnvironment.__enter__` / `__exit__`

Failures of the checked git commands are injected through a predicate
`fails` on argument vectors; the first failing command aborts the sequence
and is re-raised, mirroring `Popen.checked` raising inside the `try` block. -/

/-- The exact sequence of checked version-control commands run by
`BuildEnvironment.__enter__`: clone or fetch, then checkout, pull, and per
submodule init and update. -/
def vcCommands (hasGitDir : Bool) (repoUrl dir branch : String)
    (submodules : List String) : List (List String) :=
  (if hasGitDir then [["git", "fetch", "origin"]]
   else [["git", "clone", repoUrl, dir]])
  ++ [["git", "checkout", branch], ["git", "pull"]]
  ++ submodules.flatMap fun s =>
      [["git", "submodule", "init", s], ["git", "submodule", "update", s]]

/-- Run a command sequence until the first failure; returns the failing
argument vector, or `none` when every command exits 0. -/
def runVc (fails : List String → Bool) : List (List String) → Option (List String)
  | [] => none
  | c :: cs => if fails c then some c else runVc fails cs

/-- Result of `BuildEnvironment.__enter__`: the command whose failure
propagates out of the call (if any), and whether an ephemeral temporary
directory is left on disk afterwards. -/
structure EnterOutcome where
  raised : Option (List String)
  ephemeralOnDisk : Bool
  deriving DecidableEq, Repr

/-- Embedding of `BuildEnvironment.__enter__`.  When `fixedDir` is `none` a
`tempfile.TemporaryDirectory` is created (the ephemeral directory now exists
on disk).  The version-control steps run inside a `try` block whose bare
`except` clause calls `tmp_dir_context.cleanup()` — recursively deleting the
ephemeral directory — before re-raising, so on the failure path no ephemeral
directory remains; with a caller-supplied fixed directory no ephemeral
directory ever exists. -/
def beEnter (fixedDir : Option String) (hasGitDir : Bool)
    (repoUrl branch : String) (submodules : List String)
    (fails : List String → Bool) : EnterOutcome :=
  let ephemeralCreated := fixedDir.isNone
  let dir := fixedDir.getD "/tmp/ephemeral"
  match runVc fails (vcCommands hasGitDir repoUrl dir branch submodules) with
  | some c => { raised := some c, ephemeralOnDisk := false }
  | none => { raised := none, ephemeralOnDisk := ephemeralCreated }

/-! ### `Build._do_build` / `BuildAndMove._do_build` -/

/-- Run a command sequence through `Popen.checked`, recording every argument
vector that was actually spawned; a failing command is spawned, raises, and
aborts the rest of the sequence. -/
def execSeq (fails : List String → Bool) : List (List String) → List (List String) × Bool
  | [] => ([], true)
  | c :: cs =>
    if fails c then ([c], false)
    else
      let r := execSeq fails cs
      (c :: r.1, r.2)

/-- Substitute the build directory for the `builddir` placeholder of the
`move_from` template, as `self.move_from.format(builddir=env.tmp_dir)` does. -/
def formatBuilddir (tmpl tmpDir : String) : String :=
  tmpl.replace "{builddir}" tmpDir

/-- Result of `BuildAndMove._do_build`: the build-phase commands that were
spawned, the relocation-phase commands (`rm -rf` / `mv`) that were spawned,
and whether the whole method returned without raising. -/
structure MoveBuildResult where
  buildTrace : List (List String)
  moveTrace : List (List String)
  ok : Bool
  deriving DecidableEq, Repr

/-- Embedding of `BuildAndMove._do_build`: first `super()._do_build(env)`
runs the configured commands in order (a raise propagates immediately), then
the move source is resolved and `rm -rf move_to` followed by
`mv move_from move_to` are run. -/
def doBuildAndMove (commands : List (List String)) (moveTo : String)
    (moveFrom : Option String) (tmpDir : String)
    (fails : List String → Bool) : MoveBuildResult :=
  let b := execSeq fails commands
  if b.2 then
    let mf := match moveFrom with
      | some tmpl => formatBuilddir tmpl tmpDir
      | none => tmpDir
    let m := execSeq fails [["rm", "-rf", moveTo], ["mv", mf, moveTo]]
    { buildTrace := b.1, moveTrace := m.1, ok := m.2 }
  else
    { buildTrace := b.1, moveTrace := [], ok := false }

/-! ### `DocBot.rebuild` -/

/-- A message sent through the chat transport by `DocBot.rebuild`: a
subject-line status update to the docs switch, a body line to the docs
switch, or a body line to the bots switch. -/
inductive XmppMsg
  | subj (s : String)
  | chat (s : String)
  | bots (s : String)
  deriving DecidableEq, Repr

/-- Embedding of `DocBot.rebuild(build)` for a `build` that belongs to a
project.  `logs` are the lines forwarded by `log_func_binary` during
`build.build(...)`; `outcome` is `none` on success and `some tb` when
`build.build` raised (command failure, move failure, or environment
acquisition failure) with `tb` the formatted traceback.  The transport
(`send_message`) is an external collaborator and is modelled as total.
The trailing idle subject message is the body of the `finally` clause. -/
def rebuildTrace (projectName buildName : String) (logs : List String)
    (outcome : Option String) : List XmppMsg :=
  let topic := "Rebuilding " ++ buildName ++ " from project " ++ projectName
  [XmppMsg.subj topic, XmppMsg.chat topic]
  ++ logs.map XmppMsg.chat
  ++ (match outcome with
      | none => [XmppMsg.chat "done."]
      | some tb =>
        [XmppMsg.bots ("jonas: Project " ++ projectName ++ ", target " ++ buildName
            ++ " is broken, traceback logged to docs"),
         XmppMsg.chat tb])
  ++ [XmppMsg.subj "docbot is idle"]

/-! ### Data model: `Build`, `Project`, bot state -/

/-- Embedding of the `Build` configuration entity (constructor defaults from
the source: branch `"master"`, no submodules, the single command `make`, no
working-copy override). -/
structure BuildM where
  name : String
  branch : String := "master"
  submodules : List String := []
  commands : List (List String) := [["make"]]
  workingCopy : Option String := none
  deriving DecidableEq, Repr

/-- Embedding of the `Project` configuration entity. -/
structure ProjectM where
  name : String
  builds : List BuildM
  repositoryUrl : String
  pubsubName : Option String := none
  workingCopy : Option String := none
  deriving DecidableEq, Repr

/-- Python `dict.setdefault(k, []).extend(vs)` on an association list whose
values are lists: extends the list at an existing key in place, or appends a
new binding at the end (dict insertion order). -/
def alistExtend {K V : Type} [DecidableEq K] :
    List (K × List V) → K → List V → List (K × List V)
  | [], k, vs => [(k, vs)]
  | (k', vs') :: rest, k, vs =>
    if k' = k then (k', vs' ++ vs) :: rest
    else (k', vs') :: alistExtend rest k vs

/-- The trigger table computed in `Project.__init__`: for each build, the
build is appended under the key `(pubsub_name, build.branch)`; empty when the
project has no `pubsub_name`. -/
def ProjectM.triggers (p : ProjectM) : List ((String × String) × List BuildM) :=
  match p.pubsubName with
  | none => []
  | some ps => p.builds.foldl (fun acc b => alistExtend acc (ps, b.branch) [b]) []

/-- Python `dict(pairs)`: later bindings of the same key overwrite the value
but keep the position of the first occurrence. -/
def dictOfPairs {K V : Type} [DecidableEq K] (ps : List (K × V)) : List (K × V) :=
  ps.foldl (fun m kv =>
    if (m.lookup kv.1).isSome then
      m.map fun kv' => if kv'.1 = kv.1 then (kv'.1, kv.2) else kv'
    else m ++ [kv]) []

/-- The mutable state of the `DocBot` instance that `reloadConfig` replaces:
authorized identities, the anti-spam blacklist, the project-name table, and
the merged `(pubsub_name, branch)` dispatch table. -/
structure BotState where
  authorized : List String
  blacklist : List String
  projects : List (String × ProjectM)
  repobranchMap : List ((String × String) × List BuildM)
  deriving DecidableEq, Repr

/-- The two top-level bindings a successfully evaluated configuration
document yields. -/
structure ConfigNS where
  authorized : List String
  projects : List (String × ProjectM)
  deriving DecidableEq, Repr

/-- A Python exception value, as far as the embedded code distinguishes
them. -/
inductive PyErr
  | nameError (id : String)
  | attributeError (attr : String)
  | typeError
  | parseError
  | indexError
  | configError (s : String)
  deriving DecidableEq, Repr

/-- The merged dispatch table built by `reloadConfig`: for every project (in
table order) and every entry of its trigger table, the build list is
appended under the same key via `setdefault(...).extend(...)`. -/
def mergedTriggers (projects : List (String × ProjectM)) :
    List ((String × String) × List BuildM) :=
  projects.foldl
    (fun m p => p.2.triggers.foldl (fun m kv => alistExtend m kv.1 kv.2) m) []

/-- Embedding of `DocBot.reloadConfig`.  The outcome of `exec` on the
configuration document is passed in as `doc` (evaluation happens outside the
core).  On an evaluation error the function returns the exception before any
assignment to the bot's attributes, so the previous state is returned
untouched; on success all four attributes are replaced (the blacklist is
reset to empty). -/
def reloadConfig (st : BotState) (doc : Except PyErr ConfigNS) :
    BotState × Option PyErr :=
  match doc with
  | Except.error e => (st, some e)
  | Except.ok ns =>
    let projects := dictOfPairs ns.projects
    ({ authorized := ns.authorized,
       blacklist := [],
       projects := projects,
       repobranchMap := mergedTriggers projects }, none)

/-! ### `DocBot.pubsubPublish` -/

/-- Outcome of one invocation of the `pubsub_publish` handler: the
notification was dropped after a dispatch-table miss, it triggered
`rebuild` on the listed builds, or an exception escaped the handler. -/
inductive PubsubResult
  | droppedMiss
  | rebuilt (builds : List BuildM)
  | raised (e : PyErr)
  deriving DecidableEq, Repr

/-- Python `str.split(sep)` for a one-character separator, computed over the
character list (Lean's `String.splitOn` agrees but does not reduce inside
the kernel). -/
def pySplit (sep : Char) (s : String) : List String :=
  (s.toList.splitOn sep).map List.asString

/-- Embedding of `DocBot.pubsubPublish`.  `repo` and `ref` are the two
`findtext` results (each `none` when the element is missing).  The source
prints a malformed-notification log line for a missing field but does not
return: it then evaluates `ref.split("/")[2]` unconditionally, which raises
`AttributeError` when `ref` is `None` and `IndexError` when the ref has
fewer than three slash-separated segments.  A dispatch-table miss
(`KeyError`, including the unreachable key with `repo = None`) prints the
key and drops the notification. -/
def pubsubPublish (repo ref : Option String)
    (repobranchMap : List ((String × String) × List BuildM)) :
    List String × PubsubResult :=
  let logs := (if repo.isNone then ["Malformed git-post-update."] else [])
      ++ (if ref.isNone then ["Malformed git-post-update."] else [])
  match ref with
  | none => (logs, PubsubResult.raised (PyErr.attributeError "split"))
  | some r =>
    let parts := pySplit '/' r
    if parts.length ≤ 2 then (logs, PubsubResult.raised PyErr.indexError)
    else
      let branch := parts.getD 2 ""
      match repo with
      | none =>
        (logs ++ ["(None, '" ++ branch ++ "')"], PubsubResult.droppedMiss)
      | some rp =>
        match List.lookup (rp, branch) repobranchMap with
        | none =>
          (logs ++ ["('" ++ rp ++ "', '" ++ branch ++ "')"], PubsubResult.droppedMiss)
        | some builds => (logs, PubsubResult.rebuilt builds)

/-! ### `DocBot.message` and the command handlers

`DocBot.message` splits the body on spaces, looks the first word up in
`COMMANDS`, and evaluates
`"__func(__self, __msg, {0})".format(", ".join(args))` with Python `eval`,
passing the module globals and a local namespace binding `__func`, `__self`
(the bot instance) and `__msg`: every remaining word of the body is
interpolated verbatim as a Python expression.  The embedding models the
expression forms the verified claims exercise: a double-quoted string
literal evaluates to its contents; an identifier is resolved in the local
namespace and then among the module's top-level names (raising `NameError`
when unbound); a single attribute access `base.attr` resolves its base the
same way and reads the bot's `authorized` and `blacklist` sets exactly when
the base is `__self` — this is how a command argument can observe the
authorization state.  Attribute accesses other than those two fields, and
the printed forms of non-string objects, are represented by placeholder
values that no theorem depends on; token shapes outside this fragment are
mapped to a parse failure of the whole `eval` expression.  Any exception is
caught and answered via `replyException`; otherwise the `repr` of the
handler's return value is sent as the reply. -/

/-- A Python value as produced by evaluating a command argument or returned
by a handler.  `strSet` is a set of strings such as `self.authorized` or
`self.blacklist` (element order in its printed form follows the model's
list order; Python's set iteration order is unspecified).  `obj` stands for
any other object, such as an imported module, a class, or the bot itself
(its printed forms are schematic; no verified claim depends on them). -/
inductive PyVal
  | str (s : String)
  | pyBool (b : Bool)
  | pyNone
  | strSet (elems : List String)
  | obj (name : String)
  deriving DecidableEq, Repr

/-- Python `str()` of a value; on a set this is its `repr`, such as
`{'admin@example.com'}`, or `set()` when empty. -/
def pyStr : PyVal → String
  | PyVal.str s => s
  | PyVal.pyBool true => "True"
  | PyVal.pyBool false => "False"
  | PyVal.pyNone => "None"
  | PyVal.strSet [] => "set()"
  | PyVal.strSet es =>
    "\x7b" ++ String.intercalate ", " (es.map fun e => "'" ++ e ++ "'") ++ "\x7d"
  | PyVal.obj n => "<" ++ n ++ ">"

/-- Python `repr()` of a string: single quotes, except that a string
containing a single quote and no double quote is wrapped in double quotes
(escaping is not modelled; the embedded code produces no string holding
both quote kinds). -/
def pyReprStr (s : String) : String :=
  if s.toList.contains '\x27' && !(s.toList.contains '\x22') then
    "\x22" ++ s ++ "\x22"
  else "'" ++ s ++ "'"

/-- Python `repr()` of a value; on non-strings it agrees with `str`. -/
def pyRepr : PyVal → String
  | PyVal.str s => pyReprStr s
  | v => pyStr v

/-- The names bound at module level in `docbot.py`, the globals visible to
the `eval` call in `DocBot.message`. -/
def moduleGlobals : List String :=
  ["HubBot", "traceback", "itertools", "sys", "os", "select", "threading",
   "subprocess", "tempfile", "Popen", "Build", "BuildAndMove",
   "BuildEnvironment", "Project", "DocBot"]

/-- The names bound in the local namespace of the `eval` call:
`local = {"__func": handler, "__self": self, "__msg": msg}`. -/
def localNames : List String := ["__func", "__self", "__msg"]

/-- Whether a string is a Python identifier. -/
def isPyIdent (s : String) : Bool :=
  let cs := s.toList
  !cs.isEmpty && !(cs.headD ' ').isDigit && cs.all fun c => c.isAlphanum || c == '_'

/-- Whether a token is a double-quoted string literal. -/
def isStrLit (tok : String) : Bool :=
  let cs := tok.toList
  2 ≤ cs.length && cs.headD ' ' == '\"' && cs.getLastD ' ' == '\"'

/-- The contents of a double-quoted string literal. -/
def strLitContents (tok : String) : String :=
  List.asString (tok.toList.drop 1).dropLast

/-- Split a token of the form `base.attr` (exactly one dot). -/
def splitAttr (tok : String) : Option (String × String) :=
  match tok.toList.splitOn '.' with
  | [b, a] => some (List.asString b, List.asString a)
  | _ => none

/-- Resolve a bare identifier: the `eval` local namespace first, then the
module globals, else `NameError`. -/
def evalName (tok : String) : Except PyErr PyVal :=
  if localNames.contains tok then Except.ok (PyVal.obj tok)
  else if moduleGlobals.contains tok then Except.ok (PyVal.obj tok)
  else Except.error (PyErr.nameError tok)

/-- Evaluate an attribute access `base.attr`.  An unbound base raises
`NameError`.  On the bot object `__self`, the attributes `authorized` and
`blacklist` read the corresponding sets of the bot state; every other
attribute access on a bound name is represented by a placeholder object (in
Python these are genuine objects or `AttributeError`s; no theorem depends
on them, and the independence theorem's hypothesis excludes every dotted
token). -/
def evalAttr (st : BotState) (base attr : String) : Except PyErr PyVal :=
  if base = "__self" then
    if attr = "authorized" then Except.ok (PyVal.strSet st.authorized)
    else if attr = "blacklist" then Except.ok (PyVal.strSet st.blacklist)
    else Except.ok (PyVal.obj ("__self." ++ attr))
  else if localNames.contains base || moduleGlobals.contains base then
    Except.ok (PyVal.obj (base ++ "." ++ attr))
  else Except.error (PyErr.nameError base)

/-- Evaluate one interpolated argument word as a Python expression against
the bot state `st` (the state is consulted only through `__self` attribute
access). -/
def evalArg (st : BotState) (tok : String) : Except PyErr PyVal :=
  if isStrLit tok then Except.ok (PyVal.str (strLitContents tok))
  else if isPyIdent tok then evalName tok
  else
    match splitAttr tok with
    | some ba =>
      if isPyIdent ba.1 && isPyIdent ba.2 then evalAttr st ba.1 ba.2
      else Except.error PyErr.parseError
    | none => Except.error PyErr.parseError

/-- Whether an evaluation result is a parse failure. -/
def isParseFailure : Except PyErr PyVal → Bool
  | Except.error PyErr.parseError => true
  | _ => false

/-- Sequential left-to-right evaluation of the argument words; the first
exception wins. -/
def evalArgsGo (st : BotState) : List String → Except PyErr (List PyVal)
  | [] => Except.ok []
  | t :: ts =>
    match evalArg st t with
    | Except.error e => Except.error e
    | Except.ok v =>
      match evalArgsGo st ts with
      | Except.error e => Except.error e
      | Except.ok vs => Except.ok (v :: vs)

/-- Evaluate the argument words of the interpolated call expression: a word
that is not a valid expression makes the whole `eval` fail to parse before
anything runs; otherwise the arguments are evaluated left to right. -/
def evalArgs (st : BotState) (ts : List String) : Except PyErr (List PyVal) :=
  if ts.any (fun t => isParseFailure (evalArg st t)) then
    Except.error PyErr.parseError
  else evalArgsGo st ts

/-- A token is a plain argument when it is a string literal or a bare
identifier: the forms whose evaluation cannot read the bot state. -/
def litOrIdent (tok : String) : Bool :=
  isStrLit tok || isPyIdent tok

/-- A reply sent back to the requester: plain text via `self.reply`, or a
formatted exception traceback via `self.replyException`. -/
inductive Reply
  | text (s : String)
  | exception (e : PyErr)
  deriving DecidableEq, Repr

/-- The keys of the `COMMANDS` dispatch table. -/
inductive CmdKey
  | rebuildKey
  | reloadKey
  | echoKey
  deriving DecidableEq, Repr

/-- Lookup in the `COMMANDS` dispatch table. -/
def commandsGet (s : String) : Option CmdKey :=
  if s = "rebuild" then some CmdKey.rebuildKey
  else if s = "reload" then some CmdKey.reloadKey
  else if s = "echo" then some CmdKey.echoKey
  else none

/-- Embedding of `DocBot.cmdEcho(self, msg, *args)`: returns the `str()` of
each argument joined by single spaces. -/
def cmdEcho (args : List PyVal) : Except PyErr PyVal :=
  Except.ok (PyVal.str (String.intercalate " " (args.map pyStr)))

/-- Embedding of `DocBot.cmdRebuild(self, msg, projectName)`.  A missing or
extra argument is a `TypeError` from the call itself.  An unknown project
name returns the error string.  For a known name the source calls
`self.rebuild(project)`, passing the `Project` object where `rebuild`
expects a `Build`; `rebuild`'s statement `project = build.project` then
raises `AttributeError` (a `Project` instance has no attribute `project`),
before any message is sent and before any build runs. -/
def cmdRebuild (st : BotState) (args : List PyVal) : Except PyErr PyVal :=
  match args with
  | [arg] =>
    match arg with
    | PyVal.str name =>
      match List.lookup name st.projects with
      | none => Except.ok (PyVal.str ("Unknown project: " ++ name))
      | some _ => Except.error (PyErr.attributeError "project")
    | other => Except.ok (PyVal.str ("Unknown project: " ++ pyStr other))
  | _ => Except.error PyErr.typeError

/-- Embedding of `DocBot.message`.  `doc` is the outcome of evaluating the
configuration document, consulted only when the `reload` handler runs.
Returns the bot state after the call and the replies sent, in order.  On a
groupchat message the handler returns immediately.  Note that
`DocBot.cmdReload` replies with the exception itself on a reload error and
then returns `None`, after which `message` additionally replies with
`repr(None)`. -/
def message (st : BotState) (doc : Except PyErr ConfigNS) (isGroupchat : Bool)
    (body : String) : BotState × List Reply :=
  if isGroupchat then (st, [])
  else
    let words := pySplit ' ' body
    let cmd := words.headD ""
    let args := words.tail
    match commandsGet cmd with
    | none => (st, [Reply.text ("Unknown command: " ++ cmd)])
    | some key =>
      match evalArgs st args with
      | Except.error e => (st, [Reply.exception e])
      | Except.ok vals =>
        match key with
        | CmdKey.echoKey =>
          match cmdEcho vals with
          | Except.ok v => (st, [Reply.text (pyRepr v)])
          | Except.error e => (st, [Reply.exception e])
        | CmdKey.rebuildKey =>
          match cmdRebuild st vals with
          | Except.ok v => (st, [Reply.text (pyRepr v)])
          | Except.error e => (st, [Reply.exception e])
        | CmdKey.reloadKey =>
          match vals with
          | [] =>
            let r := reloadConfig st doc
            match r.2 with
            | some e => (r.1, [Reply.exception e, Reply.text (pyRepr PyVal.pyNone)])
            | none => (r.1, [Reply.text (pyRepr (PyVal.pyBool true))])
          | _ => (st, [Reply.exception PyErr.typeError])

/-- Embedding of `DocBot.authorizedSource`: replies and blacklists an
unauthorized, not-yet-blacklisted sender; always returns `None`.  It is
defined here because the specification names it, but no caller in the
source's command path invokes it (`messageMUC`'s call is commented out). -/
def authorizedSource (st : BotState) (origin : String) :
    BotState × List Reply × PyVal :=
  if st.authorized.contains origin then (st, [], PyVal.pyNone)
  else if st.blacklist.contains origin then (st, [], PyVal.pyNone)
  else ({ st with blacklist := st.blacklist ++ [origin] },
        [Reply.text "You're not authorized."], PyVal.pyNone)

/-- Embedding of `DocBot.messageMUC`: ignores the bot's own messages,
answers `ping` with `pong`, and otherwise does nothing. -/
def messageMUC (mucnick selfNick body : String) : List Reply :=
  if mucnick == selfNick then []
  else if body.trim == "ping" then [Reply.text "pong"]
  else []

/-! ### Concrete configuration used by the evaluation theorems -/

/-- A configured build, with the constructor defaults. -/
def buildM1 : BuildM := { name := "docs" }

/-- A configured project owning `buildM1`. -/
def projM1 : ProjectM :=
  { name := "proj1", builds := [buildM1], repositoryUrl := "git://example/repo",
    pubsubName := some "repoA" }

/-- A loaded bot state with one project. -/
def st1 : BotState :=
  { authorized := ["admin@example.com"], blacklist := [],
    projects := [("proj1", projM1)], repobranchMap := projM1.triggers }

/-- A configuration document that evaluates successfully (its contents are
irrelevant to the dispatch-path theorems). -/
def dummyDoc : Except PyErr ConfigNS := Except.ok { authorized := [], projects := [] }

/-- The same state as `st1` with a different authorized set and blacklist. -/
def st2alt : BotState := { st1 with authorized := [], blacklist := ["spammer@example.net"] }

/-! ### Claim theorems -/

/-- C1: the claim that `Popen.communicate` with a sink delivers every
complete line exactly once, each callback carrying only that line's bytes,
fails on the code.  With stdout containing the single complete line `b"b\n"`
and stderr empty, the valid readiness schedule in which stderr reports ready
(at end of stream) before stdout's data arrives makes the handler delete the
wrong entry from the watch list (`del rlist[len(rs)-(i+1)]` indexes `rs`,
not `rlist`), so the loop terminates normally having delivered no line at
all: the complete line is lost.  Moreover `_submit_buffer` passes the whole
accumulated buffer to the sink once per complete line instead of the line
itself: on the two-line buffer `b"a\nb\n"` the sink is called twice, both
times with all four bytes. -/
theorem c1_multiplexer_loses_and_duplicates_lines :
    validSchedule [98, 10] [] [[1], [1]] = true ∧
    (communicate [98, 10] [] [[1], [1]]).rlist = [] ∧
    (communicate [98, 10] [] [[1], [1]]).err = false ∧
    (communicate [98, 10] [] [[1], [1]]).out = [] ∧
    submitBuffer [97, 10, 98, 10] false =
      ([[97, 10, 98, 10], [97, 10, 98, 10]], []) := by decide

/-- C2: when `BuildEnvironment.__enter__` is given no fixed directory and any
version-control step fails, the raised failure propagates and no ephemeral
directory is left on disk, for every injection point in the acquisition
sequence. -/
theorem c2_ephemeral_cleanup_on_failure (hasGitDir : Bool)
    (repoUrl branch : String) (submodules : List String)
    (fails : List String → Bool) (c : List String)
    (h : runVc fails (vcCommands hasGitDir repoUrl "/tmp/ephemeral" branch submodules)
        = some c) :
    (beEnter none hasGitDir repoUrl branch submodules fails).raised = some c ∧
    (beEnter none hasGitDir repoUrl branch submodules fails).ephemeralOnDisk = false := by
  simp [beEnter, h]

/-- Witness for C2: failure injected at `git pull` propagates and the
ephemeral directory is gone. -/
theorem c2_ephemeral_cleanup_on_failure_witness :
    runVc (fun cmd => cmd == ["git", "pull"])
        (vcCommands false "git://example/repo" "/tmp/ephemeral" "master" ["sub"])
      = some ["git", "pull"] ∧
    (beEnter none false "git://example/repo" "master" ["sub"]
        (fun cmd => cmd == ["git", "pull"])).ephemeralOnDisk = false :=
  ⟨by decide,
   (c2_ephemeral_cleanup_on_failure false "git://example/repo" "master" ["sub"]
      (fun cmd => cmd == ["git", "pull"]) ["git", "pull"] (by decide)).2⟩

/-- C3: the claim that malformed notifications are logged and dropped
without raising fails on the code.  A notification with the ref field
missing is logged but then `ref.split("/")[2]` raises `AttributeError` out
of the handler, and a ref with fewer than three slash-separated segments
raises `IndexError`; only the well-formed case extracts segment index 2 and
dispatches. -/
theorem c3_malformed_notification_raises :
    pubsubPublish (some "repoA") none [] =
      (["Malformed git-post-update."], PubsubResult.raised (PyErr.attributeError "split")) ∧
    pubsubPublish (some "repoA") (some "refs") [] =
      ([], PubsubResult.raised PyErr.indexError) ∧
    pubsubPublish (some "repoA") (some "refs/heads/main")
        [(("repoA", "main"), [buildM1])] =
      ([], PubsubResult.rebuilt [buildM1]) := by decide

/-- C4: the claim about `rebuild <projectName>` fails on the code.  The bare
word `doesnotexist` is interpolated into the `eval` expression and raises
`NameError`, so the reply is an exception traceback rather than the error
string; with a properly quoted known project name, `cmdRebuild` passes the
`Project` object to `rebuild`, which raises `AttributeError` before any
build runs; and even a quoted unknown name is answered with the `repr` of
the error string (wrapped in quotes), not the plain string. -/
theorem c4_rebuild_command_broken :
    message st1 dummyDoc false "rebuild doesnotexist" =
      (st1, [Reply.exception (PyErr.nameError "doesnotexist")]) ∧
    message st1 dummyDoc false "rebuild \"proj1\"" =
      (st1, [Reply.exception (PyErr.attributeError "project")]) ∧
    message st1 dummyDoc false "rebuild \"nope\"" =
      (st1, [Reply.text "'Unknown project: nope'"]) := by decide

/-- C5 counterexample: the input `echo foo bar` does not yield the reply
`foo bar`; the bare word `foo` is evaluated as a Python expression, raises
`NameError`, and the reply is the exception traceback. -/
theorem c5_echo_bareword_counterexample :
    message st1 dummyDoc false "echo foo bar" =
      (st1, [Reply.exception (PyErr.nameError "foo")]) ∧
    (message st1 dummyDoc false "echo foo bar").2 ≠ [Reply.text "foo bar"] := by decide

/-- C5 as amended: `echo` arguments are evaluated as Python expressions and
the reply is the `repr` of the evaluated arguments joined by single spaces,
so `echo "foo" "bar"` yields the reply `'foo bar'`. -/
theorem c5_echo_string_literal_reply :
    message st1 dummyDoc false "echo \"foo\" \"bar\"" =
      (st1, [Reply.text "'foo bar'"]) := by decide

/-- C6: the claim that `Popen.checked` returns normally on exit code 0 with
a sink configured fails on the code.  When stderr reaches end of stream
while stdout still has a line and both are reported ready in one poll round,
the handler shrinks `buffers` while iterating and then evaluates
`buffers[i] += read` with `i = 1` on a one-element list: `IndexError`
escapes `communicate` and hence `checked`, even though the child exited 0.
Without a sink the claimed exit-code semantics do hold: exit 0 returns
normally and a non-zero exit raises `CalledProcessError` carrying that exit
code and the space-joined argument vector, with exactly one spawn. -/
theorem c6_checked_raises_despite_zero_exit :
    validSchedule [97, 10] [] [[0, 1]] = true ∧
    checked ["make"] true ⟨[97, 10], [], [[0, 1]], 0⟩ =
      (CheckedOutcome.indexError, 1) ∧
    checked ["make"] false ⟨[], [], [], 0⟩ = (CheckedOutcome.ok, 1) ∧
    checked ["make", "all"] false ⟨[], [], [], 2⟩ =
      (CheckedOutcome.commandFailed 2 "make all", 1) := by decide

/-- C7: if any configured build command of a `BuildAndMove` fails, the
relocation step is never performed: no `rm -rf` and no `mv` is spawned, and
the spawned commands are exactly the build-phase prefix up to the failure. -/
theorem c7_no_move_after_failed_command (commands : List (List String))
    (moveTo : String) (moveFrom : Option String) (tmpDir : String)
    (fails : List String → Bool)
    (h : (execSeq fails commands).2 = false) :
    (doBuildAndMove commands moveTo moveFrom tmpDir fails).moveTrace = [] ∧
    (doBuildAndMove commands moveTo moveFrom tmpDir fails).buildTrace =
      (execSeq fails commands).1 := by
  simp [doBuildAndMove, h]

/-- Witness for C7: with the first of two commands failing, no relocation
command is spawned. -/
theorem c7_no_move_after_failed_command_witness :
    (execSeq (fun c => c == ["make"]) [["make"], ["make", "install"]]).2 = false ∧
    (doBuildAndMove [["make"], ["make", "install"]] "/var/www/docs"
        (some "{builddir}/out") "/tmp/build" (fun c => c == ["make"])).moveTrace = [] :=
  ⟨by decide,
   (c7_no_move_after_failed_command [["make"], ["make", "install"]] "/var/www/docs"
      (some "{builddir}/out") "/tmp/build" (fun c => c == ["make"]) (by decide)).1⟩

/-- C8: when the configuration document fails to evaluate, `reloadConfig`
returns the exception to the caller and every piece of previously loaded
state — authorized set, blacklist, project table, dispatch table — is
exactly what it was before the call. -/
theorem c8_reload_error_preserves_state (st : BotState) (e : PyErr) :
    (reloadConfig st (Except.error e)).1.authorized = st.authorized ∧
    (reloadConfig st (Except.error e)).1.blacklist = st.blacklist ∧
    (reloadConfig st (Except.error e)).1.projects = st.projects ∧
    (reloadConfig st (Except.error e)).1.repobranchMap = st.repobranchMap ∧
    (reloadConfig st (Except.error e)).2 = some e :=
  ⟨rfl, rfl, rfl, rfl, rfl⟩

/-- Helper for C9: appending one element fixes the last element of a list. -/
theorem getLast?_append_singleton {α : Type} (l : List α) (a : α) :
    (l ++ [a]).getLast? = some a := by
  rw [List.getLast?_append_cons]; rfl

/-- C9: whatever the outcome of the build — success or any exception raised
by `build.build`, covering command, move, and environment-acquisition
failures — the last message `DocBot.rebuild` sends is the idle subject-line
announcement, produced by the `finally` clause. -/
theorem c9_idle_always_announced (projectName buildName : String)
    (logs : List String) (outcome : Option String) :
    (rebuildTrace projectName buildName logs outcome).getLast? =
      some (XmppMsg.subj "docbot is idle") := by
  unfold rebuildTrace
  cases outcome <;>
    · simp only [← List.append_assoc]
      exact getLast?_append_singleton _ _

/-- Helper for C10: evaluating a string literal or a bare identifier never
reads the bot state. -/
theorem evalArg_state_free (s t : BotState) (tok : String)
    (h : litOrIdent tok = true) : evalArg s tok = evalArg t tok := by
  unfold litOrIdent at h
  rcases Bool.or_eq_true_iff.mp h with h1 | h1 <;> simp [evalArg, h1]

/-- Helper for C10: the parse pre-check agrees on the two states when every
token is a string literal or a bare identifier. -/
theorem anyParse_state_free (s t : BotState) (ts : List String)
    (h : ts.all litOrIdent = true) :
    ts.any (fun tok => isParseFailure (evalArg s tok)) =
      ts.any (fun tok => isParseFailure (evalArg t tok)) := by
  induction ts with
  | nil => rfl
  | cons a as ih =>
    rw [List.all_cons, Bool.and_eq_true] at h
    simp only [List.any_cons, evalArg_state_free s t a h.1, ih h.2]

/-- Helper for C10: sequential argument evaluation agrees on the two states
when every token is a string literal or a bare identifier. -/
theorem evalArgsGo_state_free (s t : BotState) (ts : List String)
    (h : ts.all litOrIdent = true) : evalArgsGo s ts = evalArgsGo t ts := by
  induction ts with
  | nil => rfl
  | cons a as ih =>
    rw [List.all_cons, Bool.and_eq_true] at h
    simp only [evalArgsGo, evalArg_state_free s t a h.1, ih h.2]

/-- Helper for C10: `evalArgs` agrees on the two states when every token is
a string literal or a bare identifier. -/
theorem evalArgs_state_free (s t : BotState) (ts : List String)
    (h : ts.all litOrIdent = true) : evalArgs s ts = evalArgs t ts := by
  unfold evalArgs
  rw [anyParse_state_free s t ts h, evalArgsGo_state_free s t ts h]

/-- C10 counterexample: the claimed independence fails on the code.  The
`eval` call binds the bot instance as `__self` in its local namespace, so
the command-channel body `echo __self.authorized` is a valid expression
whose reply prints the authorized set, and `echo __self.blacklist` prints
the blacklist: two states that agree on the project and dispatch tables but
differ in those sets produce different replies, so the reply is not
independent of the authorization state. -/
theorem c10_authorization_leak_counterexample :
    st1.projects = st2alt.projects ∧
    st1.repobranchMap = st2alt.repobranchMap ∧
    (message st1 dummyDoc false "echo __self.authorized").2 =
      [Reply.text "\x22\x7b'admin@example.com'\x7d\x22"] ∧
    (message st2alt dummyDoc false "echo __self.authorized").2 =
      [Reply.text "'set()'"] ∧
    (message st1 dummyDoc false "echo __self.authorized").2 ≠
      (message st2alt dummyDoc false "echo __self.authorized").2 ∧
    (message st1 dummyDoc false "echo __self.blacklist").2 ≠
      (message st2alt dummyDoc false "echo __self.blacklist").2 := by decide

/-- C10 as amended: the command-dispatch path of `DocBot.message` never
consults `authorizedSource`, and for every message whose argument words are
plain — each a string literal or a bare identifier, so that none reads the
bot state through the eval-exposed `__self` — two bot states that agree on
the project table and the dispatch table but differ arbitrarily in
`authorized` and `blacklist` produce identical replies and identical
project/dispatch tables afterwards, for every configuration document. -/
theorem c10_dispatch_independent_for_plain_args (s t : BotState)
    (doc : Except PyErr ConfigNS) (isGroupchat : Bool) (body : String)
    (hp : s.projects = t.projects) (hm : s.repobranchMap = t.repobranchMap)
    (hargs : ((pySplit ' ' body).tail).all litOrIdent = true) :
    (message s doc isGroupchat body).2 = (message t doc isGroupchat body).2 ∧
    (message s doc isGroupchat body).1.projects =
      (message t doc isGroupchat body).1.projects ∧
    (message s doc isGroupchat body).1.repobranchMap =
      (message t doc isGroupchat body).1.repobranchMap := by
  unfold message
  cases isGroupchat with
  | true => simp [hp, hm]
  | false =>
    simp only [Bool.false_eq_true, if_false]
    have hEV : evalArgs s (pySplit ' ' body).tail = evalArgs t (pySplit ' ' body).tail :=
      evalArgs_state_free s t _ hargs
    cases hC : commandsGet ((pySplit ' ' body).headD "") with
    | none => simp [hp, hm]
    | some key =>
      rw [hEV]
      cases hE : evalArgs t (pySplit ' ' body).tail with
      | error e => simp [hp, hm]
      | ok vals =>
        have hR : cmdRebuild s vals = cmdRebuild t vals := by
          unfold cmdRebuild; rw [hp]
        cases key with
        | echoKey => simp [cmdEcho, hp, hm]
        | rebuildKey =>
          dsimp only
          rw [hR]
          cases cmdRebuild t vals <;> simp [hp, hm]
        | reloadKey =>
          cases vals with
          | nil =>
            cases doc with
            | error e => simp [reloadConfig, hp, hm]
            | ok ns => simp [reloadConfig]
          | cons v vs => simp [hp, hm]

/-- Witness for C10 as amended: two states differing in authorized set and
blacklist answer `echo "hi"` (a plain string-literal argument) with the
same reply. -/
theorem c10_dispatch_independent_for_plain_args_witness :
    st1.projects = st2alt.projects ∧ st1.repobranchMap = st2alt.repobranchMap ∧
    ((pySplit ' ' "echo \"hi\"").tail).all litOrIdent = true ∧
    st1.authorized ≠ st2alt.authorized ∧ st1.blacklist ≠ st2alt.blacklist ∧
    (message st1 dummyDoc false "echo \"hi\"").2 =
      (message st2alt dummyDoc false "echo \"hi\"").2 :=
  ⟨by decide, by decide, by decide, by decide, by decide,
   (c10_dispatch_independent_for_plain_args st1 st2alt dummyDoc false "echo \"hi\""
      (by decide) (by decide) (by decide)).1⟩

end Docbot
